import Mathlib

/-!
Verification development for the WhatsApp movie bot
(`src/nkiri.ts`, `src/index.ts`, the Baileys variant of the controller, and
`src/Baileys/src/ai-chat.ts`).

The JavaScript source is shallowly embedded: string-processing code is
translated to executable functions over `String`/`List Char`, external I/O
(HTTP fetches, gateway POSTs, the chat transport, the filesystem) is
parameterised by explicit outcome values, and the per-conversation session
map (a plain JS object keyed by chat id) is embedded as a function
`String → Option Session`.
-/

/-! ## Character and string utilities (JS regex/string semantics) -/

/-- The whitespace class of JavaScript regexes and `trim` (ASCII part plus
no-break space; the exotic Unicode spaces are irrelevant to this code). -/
def jsWs (c : Char) : Bool :=
  c = ' ' || c = '\t' || c = '\n' || c = '\r' || c = '\x0b' || c = '\x0c' || c = ' '

/-- Case-insensitive "is `pat` a prefix of `cs`" where `pat` is already
lowercase, mirroring a case-insensitive JS regex literal. -/
def isPrefixCI : List Char → List Char → Bool
  | [], _ => true
  | _ :: _, [] => false
  | p :: ps, c :: cs => p = c.toLower && isPrefixCI ps cs

/-- JS `String.prototype.includes` on char lists (substring containment). -/
def containsList : List Char → List Char → Bool
  | hay@(_ :: t), needle => needle.isPrefixOf hay || containsList t needle
  | [], needle => needle.isEmpty

/-- JS `haystack.includes(pat)`. -/
def containsStr (hay pat : String) : Bool :=
  containsList hay.data pat.data

/-- JS `String.prototype.toLowerCase` (the ASCII case mapping is all this
code relies on). -/
def lowerStr (s : String) : String :=
  String.mk (s.data.map Char.toLower)

/-- JS `String.prototype.split` with a single-character separator. -/
def splitOnChar (sep : Char) : List Char → List (List Char)
  | [] => [[]]
  | c :: rest =>
    let r := splitOnChar sep rest
    if c = sep then [] :: r
    else
      match r with
      | [] => [c] :: []
      | h :: t => (c :: h) :: t

/-- JS `parseInt` on a non-empty decimal digit string. -/
def natOfDigits (ds : List Char) : Nat :=
  ds.foldl (fun n c => n * 10 + (c.toNat - '0'.toNat)) 0

/-- JS `trim()` on a char list. -/
def trimChars (cs : List Char) : List Char :=
  ((cs.dropWhile (fun c => jsWs c)).reverse.dropWhile (fun c => jsWs c)).reverse

/-- Worker for JS `.replace(pat, '')` with the `gi` flags: scan left to
right; on a match emit nothing and skip the rest of the matched occurrence
(the skip counter keeps the recursion structural). -/
def removeAllCIAux (pat : List Char) : Nat → List Char → List Char
  | _, [] => []
  | skip + 1, _ :: rest => removeAllCIAux pat skip rest
  | 0, c :: rest =>
    if pat ≠ [] ∧ isPrefixCI pat (c :: rest) then
      removeAllCIAux pat (pat.length - 1) rest
    else
      c :: removeAllCIAux pat 0 rest

/-- JS `.replace(pat-regex-with-gi-flag, '')` for a fixed lowercase literal
pattern: delete every (non-overlapping, left-to-right) case-insensitive
occurrence of `pat`. -/
def removeAllCI (pat : List Char) (cs : List Char) : List Char :=
  removeAllCIAux pat 0 cs

/-- The alternatives of the noise-token regex `/\.(mkv|mp4|html|nkiri|com)/gi`,
in the source's alternation order. -/
def extAlts : List (List Char) :=
  ["mkv".data, "mp4".data, "html".data, "nkiri".data, "com".data]

/-- Worker for JS `.replace(/\.(mkv|mp4|html|nkiri|com)/gi, ' ')`: on a dot
followed by one of the alternatives emit a single space and skip the
alternative's characters. -/
def replaceExtsAux : Nat → List Char → List Char
  | _, [] => []
  | skip + 1, _ :: rest => replaceExtsAux skip rest
  | 0, c :: rest =>
    if c = '.' then
      match extAlts.find? (fun a => isPrefixCI a rest) with
      | some a => ' ' :: replaceExtsAux a.length rest
      | none => c :: replaceExtsAux 0 rest
    else c :: replaceExtsAux 0 rest

/-- JS `.replace(/\.(mkv|mp4|html|nkiri|com)/gi, ' ')`: each occurrence of a
dot followed by one of the alternatives becomes a single space. -/
def replaceExts (cs : List Char) : List Char :=
  replaceExtsAux 0 cs

/-- JS `.replace(/[._-]/g, ' ')`. -/
def sepToSpace (cs : List Char) : List Char :=
  cs.map (fun c => if c = '.' || c = '_' || c = '-' then ' ' else c)

/-- Worker for JS `.replace(/\s+/g, ' ')`: the flag records whether the
previous character was part of a whitespace run already replaced. -/
def collapseWsAux : Bool → List Char → List Char
  | _, [] => []
  | prevWs, c :: rest =>
    if jsWs c then
      if prevWs then collapseWsAux true rest else ' ' :: collapseWsAux true rest
    else c :: collapseWsAux false rest

/-- Digits captured by `\s*(\d+)` at the current position (greedy whitespace
run, then at least one digit), or `none` when the group cannot match. -/
def digitsAfterWs (cs : List Char) : Option (List Char) :=
  let cs2 := cs.dropWhile (fun c => jsWs c)
  let ds := cs2.takeWhile Char.isDigit
  if ds.isEmpty then none else some ds

/-- One attempt of `/[Xx](?:word)?\s*(\d+)/i` anchored at the head of the
list: the optional word is tried greedily first, with regex backtracking to
the word-less alternative. Returns the captured digit run. -/
def tokenHere (base : Char) (word : List Char) : List Char → Option (List Char)
  | [] => none
  | c :: rest =>
    if c.toLower = base then
      match (if isPrefixCI word rest then digitsAfterWs (rest.drop word.length) else none) with
      | some ds => some ds
      | none => digitsAfterWs rest
    else none

/-- First (leftmost) match of `/[Xx](?:word)?\s*(\d+)/i`, as in JS
`String.prototype.match` without the `g` flag. -/
def scanToken (base : Char) (word : List Char) : List Char → Option (List Char)
  | [] => none
  | c :: rest =>
    match tokenHere base word (c :: rest) with
    | some ds => some ds
    | none => scanToken base word rest

/-- Index of the first `[Ss]` immediately followed by a digit, the anchor of
`/\s*[Ss](\d+).*/i`. -/
def findSeasonIdx : List Char → Option Nat
  | c1 :: c2 :: rest =>
    if (c1 = 'S' || c1 = 's') && c2.isDigit then some 0
    else (findSeasonIdx (c2 :: rest)).map (· + 1)
  | _ => none

/-- JS `title.replace(/\s*[Ss](\d+).*/i, '')`: delete the first match, which
starts at the season token backed up over the preceding whitespace run and
extends over the digits and then greedily over the rest of the line. -/
def stripSeasonSuffix (cs : List Char) : List Char :=
  match findSeasonIdx cs with
  | none => cs
  | some j =>
    let pre := cs.take j
    let i := j - ((pre.reverse.takeWhile (fun c => jsWs c)).length)
    let afterS := cs.drop (j + 1)
    let ds := afterS.takeWhile Char.isDigit
    let restAfter := afterS.drop ds.length
    let tailMatch := restAfter.takeWhile (fun c => c ≠ '\n')
    cs.take i ++ cs.drop (j + 1 + ds.length + tailMatch.length)

/-! ## Data model shared by `src/nkiri.ts` and the controllers -/

/-- `MovieSearchResult` of `src/nkiri.ts`. -/
structure MovieSearchResult where
  title : String
  url : String
deriving DecidableEq

/-- `DownloadLink` of `src/nkiri.ts`. -/
structure DownloadLink where
  label : String
  url : String
deriving DecidableEq

/-! ## Link resolver (`getDownloadLinks` in `src/nkiri.ts`) -/

/-- A hyperlink as extracted by cheerio from the detail page: `href`
attribute and visible text (pre-`trim`). -/
structure Anchor where
  href : String
  text : String
deriving DecidableEq

/-- A `section.elementor-section a.elementor-button` element: its `href`,
the text of its `.elementor-button-text` child, and its own full text. -/
structure ButtonEl where
  href : String
  btnText : String
  fullText : String
deriving DecidableEq

/-- Outcome of processing one gateway page (`downloadwella`/`wetafiles`):
the fetch/POST either throws without a usable redirect, throws a
redirect-as-error carrying a `Location` header (status 302), or completes,
yielding the hidden fields of `form[name="F1"]` and — when the hidden-form
POST was performed — the optional `Location` header of its response. -/
inductive GatewayResult where
  | throwNoRedirect
  | throwRedirect (location : String)
  | ok (hidden : List (String × String)) (postLocation : Option String)
deriving DecidableEq

/-- `location.split('/').pop()?.split('?')[0] || ''`: the path tail of a URI
with everything from the first `?` on removed. -/
def filenameOf (location : String) : String :=
  String.mk ((splitOnChar '?' (((splitOnChar '/' location.data).getLast?).getD [])).headD [])

/-- Lines 111–117 / 122–128 of `src/nkiri.ts`: build the final entry for a
gateway page from its menu label and the redirect `Location`, replacing a
generic label by the filename portion of the final URI when non-empty. -/
def mkGatewayEntry (label location : String) : DownloadLink :=
  if containsStr (lowerStr label) "direct link" || lowerStr label == "download" then
    let filename := filenameOf location
    if filename ≠ "" then ⟨filename, location⟩ else ⟨label, location⟩
  else ⟨label, location⟩

/-- The per-gateway loop body (lines 86–131 of `src/nkiri.ts`): an entry is
produced when the POST response carries a `Location` (redirects thrown as
errors included); a failure or a missing header silently omits the entry. -/
def runGateway (env : String → GatewayResult) (page : DownloadLink) : Option DownloadLink :=
  match env page.url with
  | GatewayResult.throwNoRedirect => none
  | GatewayResult.throwRedirect loc => some (mkGatewayEntry page.label loc)
  | GatewayResult.ok hidden postLoc =>
    if hidden.length > 0 then
      match postLoc with
      | some loc => some (mkGatewayEntry page.label loc)
      | none => none
    else none

/-- Phase A of `getDownloadLinks`: every `<a>` whose href lies on the
direct-file host allow-list, labelled by its trimmed text with a generic
fallback. -/
def directLinksOf (anchors : List Anchor) : List DownloadLink :=
  anchors.filterMap fun a =>
    if containsStr a.href "nkiserv.com" || containsStr a.href "ds2.nkiserv.com" then
      some ⟨if (trimChars a.text.data).isEmpty then "Direct Link" else String.mk (trimChars a.text.data), a.href⟩
    else none

/-- Phase B candidate gateway pages: button elements whose href lies on the
gateway host allow-list, labelled by the button text with fallback to the
anchor's own text. -/
def downloadPagesOf (buttons : List ButtonEl) : List DownloadLink :=
  buttons.filterMap fun b =>
    if containsStr b.href "downloadwella.com" || containsStr b.href "wetafiles.com" then
      some ⟨if (trimChars b.btnText.data).isEmpty then String.mk (trimChars b.fullText.data)
            else String.mk (trimChars b.btnText.data), b.href⟩
    else none

/-- Result of fetching and parsing the detail page: failure, or the parsed
anchors and button elements. -/
inductive DetailFetch where
  | fail
  | page (anchors : List Anchor) (buttons : List ButtonEl)

/-- The `finalLinks` array right before deduplication: Phase A entries in
document order followed by the surviving gateway entries in page order. -/
def rawFinalLinks (detail : DetailFetch) (env : String → GatewayResult) : List DownloadLink :=
  match detail with
  | DetailFetch.fail => []
  | DetailFetch.page anchors buttons =>
    directLinksOf anchors ++ (downloadPagesOf buttons).filterMap (runGateway env)

/-- The trailing `filter` over the mutable `seen` set (lines 133–139 of
`src/nkiri.ts`): keep an entry iff its url was not seen before it. -/
def dedupeAux (seen : List String) : List DownloadLink → List DownloadLink
  | [] => []
  | l :: ls =>
    if l.url ∈ seen then dedupeAux (l.url :: seen) ls
    else l :: dedupeAux (l.url :: seen) ls

/-- De-duplicate by exact url string, first occurrence wins. -/
def dedupeByUrl (links : List DownloadLink) : List DownloadLink :=
  dedupeAux [] links

/-- `getDownloadLinks` of `src/nkiri.ts`, over the fetch outcomes: empty on
detail-page failure, otherwise the deduplicated merged list. -/
def getDownloadLinks (detail : DetailFetch) (env : String → GatewayResult) : List DownloadLink :=
  match detail with
  | DetailFetch.fail => []
  | DetailFetch.page _ _ => dedupeByUrl (rawFinalLinks detail env)

/-- A gateway button whose page fetch/POST throws without a usable redirect
(the genuine failure case of the per-gateway `catch`). -/
def gatewayFails (env : String → GatewayResult) (b : ButtonEl) : Bool :=
  match env b.href with
  | GatewayResult.throwNoRedirect => true
  | _ => false

/-! ## Label normalizer (the label-cleanup loop in both controllers) -/

/-- The episode branch of the cleanup loop: `"<strippedTitle> <S-token> Episode
<i+1>"` with repeated whitespace collapsed. The season segment is produced by
JS `season ? 'S' + season : ''`, so a parsed season of `0` is dropped. -/
def episodeLabel (raw : String) (i : Nat) (title : String) : String :=
  let seasonStr : List Char :=
    match scanToken 's' ("eason".data) raw.data with
    | some ds => if natOfDigits ds ≠ 0 then 'S' :: (toString (natOfDigits ds)).data else []
    | none => []
  let displayTitle := trimChars (stripSeasonSuffix title.data)
  String.mk (collapseWsAux false
    (displayTitle ++ [' '] ++ seasonStr ++ " Episode ".data ++ (toString (i + 1)).data))

/-- The fallback branch of the cleanup loop: strip "download", noise tokens
and separators, trim, and prepend the parent title with a 1-based position
when the title is not already contained (case-insensitively). -/
def fallbackLabel (raw : String) (i : Nat) (title : String) : String :=
  let cleaned := trimChars (sepToSpace (replaceExts (removeAllCI ("download".data) raw.data)))
  if containsList (cleaned.map Char.toLower) (title.data.map Char.toLower) then
    String.mk cleaned
  else
    String.mk (title.data ++ " - ".data ++ cleaned ++ [' '] ++ (toString (i + 1)).data)

/-- Lines 265–292 of `src/index.ts` (337–359 of the Baileys controller): the
display label for the `i`-th (0-based) resolved link with raw label `raw`
under parent title `title`. -/
def cleanLabel (raw : String) (i : Nat) (title : String) : String :=
  match scanToken 'e' ("pisode".data) raw.data with
  | some _ => episodeLabel raw i title
  | none => fallbackLabel raw i title

/-! ## Conversation sessions and the numeric-reply dispatcher (`src/index.ts`) -/

/-- The three stages of `Session.state`. -/
inductive SessionState where
  | SEARCH_RESULTS
  | EPISODE_SELECTION
  | DOWNLOAD_METHOD_SELECTION
deriving DecidableEq

/-- The `Session` record of both controllers. Optional JS fields that are
always written before being read are embedded with empty defaults. -/
structure Session where
  state : SessionState
  lastResults : List MovieSearchResult
  lastLinks : List DownloadLink
  selectedMovie : Option MovieSearchResult
  selectedLink : Option DownloadLink
  timestamp : Nat
deriving DecidableEq

/-- The global `sessions` object: a JS record keyed by chat id, so each
conversation id maps to at most one `Session` by construction. -/
abbrev Store := String → Option Session

/-- `sessions[chatId] = s`. -/
def Store.set (t : Store) (k : String) (v : Session) : Store :=
  fun c => if c = k then some v else t c

/-- `delete sessions[chatId]`. -/
def Store.del (t : Store) (k : String) : Store :=
  fun c => if c = k then none else t c

/-- Observable actions of the message handler, in execution order: outbound
sends, `msg.reply`, deletion of the session entry, and the start of the
transfer pipeline (`downloadAndSend`). -/
inductive Event where
  | sendText (chatId text : String)
  | replyMsg (text : String)
  | deleteSession (chatId : String)
  | startTransfer (chatId : String) (link : DownloadLink)
deriving DecidableEq

/-- JS array indexing `arr[i]` with a possibly negative or out-of-range
integer index: `undefined` becomes `none`. -/
def jsIndex {α : Type} (l : List α) (i : Int) : Option α :=
  if i < 0 then none else l.get? i.toNat

/-- The numbered episode/link menu assembled in the `SEARCH_RESULTS` branch. -/
def episodeMenu (title : String) (links : List DownloadLink) : String :=
  (links.enum.foldl
    (fun acc p => acc ++ toString (p.1 + 1) ++ ". " ++ cleanLabel p.2.label p.1 title ++ "\n")
    ("📥 *Results for " ++ title ++ ":*\n\n"))
  ++ "\nReply with the *number* to *DOWNLOAD & SEND* the file."

/-- The two-option delivery menu shown on entering `DOWNLOAD_METHOD_SELECTION`. -/
def choiceMenu (label : String) : String :=
  "❓ *How would you like to receive \"" ++ label ++ "\"?*\n\n"
  ++ "1. *Get Direct Link* (Fastest, no waiting)\n"
  ++ "2. *Send as File* (⚠️ Risky & Not reliable)\n\n"
  ++ "Reply with *1* or *2*."

/-- Section 3 of the message handler (lines 239–333 of `src/index.ts`,
310–403 of the Baileys controller): interpretation of a reply that parsed to
the integer `selection` while a session may exist. `getLinks` stands for the
external `getDownloadLinks` call; `now` for `Date.now()`. Returns the
updated session map and the emitted actions in order. -/
def handleNumericReply (sessions : Store) (chatId : String) (selection : Int)
    (getLinks : String → List DownloadLink) (now : Nat) : Store × List Event :=
  match sessions chatId with
  | none => (sessions, [])
  | some session =>
    match session.state with
    | SessionState.SEARCH_RESULTS =>
      match jsIndex session.lastResults (selection - 1) with
      | none => (sessions, [Event.replyMsg "Invalid selection."])
      | some movie =>
        let ev1 := Event.sendText chatId ("🎞️ Opening *" ++ movie.title ++ "*...")
        let links := getLinks movie.url
        if links.isEmpty then
          (sessions, [ev1, Event.replyMsg "❌ No download links found."])
        else
          let s2 : Session :=
            { session with
              state := SessionState.EPISODE_SELECTION
              lastLinks := links
              selectedMovie := some movie
              timestamp := now }
          (sessions.set chatId s2, [ev1, Event.sendText chatId (episodeMenu movie.title links)])
    | SessionState.EPISODE_SELECTION =>
      match jsIndex session.lastLinks (selection - 1) with
      | none => (sessions, [Event.replyMsg "Invalid selection."])
      | some link =>
        let s2 : Session :=
          { session with
            state := SessionState.DOWNLOAD_METHOD_SELECTION
            selectedLink := some link
            timestamp := now }
        (sessions.set chatId s2, [Event.sendText chatId (choiceMenu link.label)])
    | SessionState.DOWNLOAD_METHOD_SELECTION =>
      let link := session.selectedLink.getD ⟨"", ""⟩
      if selection = 1 then
        (sessions.del chatId, [Event.sendText chatId link.url, Event.deleteSession chatId])
      else if selection = 2 then
        (sessions.del chatId, [Event.deleteSession chatId, Event.startTransfer chatId link])
      else
        (sessions, [Event.replyMsg "Please reply with *1* for the link or *2* for the file."])

/-! ## Transfer pipeline (`downloadAndSend` in `src/index.ts`) -/

/-- State of the `data` handler closure: bytes received so far, the shared
`lastLoggedProgress` variable (initially `-1`), and the user-facing percent
messages sent so far, in order. -/
structure DlProgress where
  downloadedBytes : Nat
  lastLoggedProgress : Int
  sentPercents : List Nat
deriving DecidableEq

/-- Lines 82–103 of `src/index.ts`: processing of one stream chunk of
`chunkLen` bytes against a `content-length` of `totalBytes` (0 when the
header is absent, as `parseInt(... || '0')` yields). A user-facing percent
is sent only inside the `progress % 10 === 0` log guard, and only when
additionally `progress % 25 === 0 && progress > 0 && progress < 100`. -/
def onDataChunk (totalBytes : Nat) (st : DlProgress) (chunkLen : Nat) : DlProgress :=
  let downloadedBytes := st.downloadedBytes + chunkLen
  if totalBytes > 0 then
    let progress := downloadedBytes * 100 / totalBytes
    if progress % 10 = 0 ∧ (progress : Int) ≠ st.lastLoggedProgress then
      let sent :=
        if progress % 25 = 0 ∧ progress > 0 ∧ progress < 100 then
          st.sentPercents ++ [progress]
        else st.sentPercents
      ⟨downloadedBytes, (progress : Int), sent⟩
    else ⟨downloadedBytes, st.lastLoggedProgress, st.sentPercents⟩
  else
    let mb := downloadedBytes / (1024 * 1024)
    if mb % 10 = 0 ∧ (mb : Int) ≠ st.lastLoggedProgress then
      ⟨downloadedBytes, (mb : Int), st.sentPercents⟩
    else ⟨downloadedBytes, st.lastLoggedProgress, st.sentPercents⟩

/-- The user-facing percent messages sent over a whole transfer whose stream
delivers `chunks`. -/
def progressSent (totalBytes : Nat) (chunks : List Nat) : List Nat :=
  (chunks.foldl (onDataChunk totalBytes) ⟨0, -1, []⟩).sentPercents

/-- `fs.unlink` wrapped in `try { } catch {}`: remove the file if present,
ignore a missing file. -/
def fsUnlinkIgnore (fs : List String) (f : String) : List String :=
  fs.erase f

/-- `createWriteStream(tempFile)`: the staging file comes into existence. -/
def fsCreate (fs : List String) (f : String) : List String :=
  f :: fs

/-- `fs.rename(src, dst)` when `src` exists. -/
def fsRename (fs : List String) (src dst : String) : List String :=
  if src ∈ fs then dst :: fs.erase src else fs

/-- Files left on disk by `downloadAndSend` (lines 62–143 of
`src/index.ts`), starting from no staging files, as a function of whether
the streaming fetch opens, the stream completes, and the final
`sendMessage` delivery succeeds. On success the final file is unlinked in
the `try`; the `finally` always unlinks the original temp path. -/
def downloadAndSendFiles (tempFile finalFile : String)
    (fetchOk streamOk sendOk : Bool) : List String :=
  let fs : List String := []
  if !fetchOk then
    fsUnlinkIgnore fs tempFile
  else
    let fs := fsCreate fs tempFile
    if !streamOk then
      fsUnlinkIgnore fs tempFile
    else
      let fs := fsRename fs tempFile finalFile
      if sendOk then
        fsUnlinkIgnore (fsUnlinkIgnore fs finalFile) tempFile
      else
        fsUnlinkIgnore fs tempFile

/-! ## External media download (`downloadMedia` in `src/Baileys/src/ai-chat.ts`) -/

/-- `MediaDownloadResult` of `src/Baileys/src/ai-chat.ts`. -/
structure MediaDownloadResult where
  success : Bool
  filePath : Option String
  title : Option String
  isAudio : Option Bool
  error : Option String
deriving DecidableEq

/-- `sizeMB.toFixed(1)` for `sizeMB = size / (1024*1024)`: megabytes rounded
to one decimal (the float division by a power of two is exact, so rounding
the rational value is faithful). -/
def fmtMB1 (size : Nat) : String :=
  let tenths := (size * 10 + 524288) / 1048576
  toString (tenths / 10) ++ "." ++ toString (tenths % 10)

/-- Lines 293–307 of `src/Baileys/src/ai-chat.ts`: the size gate after the
download produced `filePath` with `sizeBytes` bytes. `sizeMB > 64` on exact
floats is `sizeBytes > 64 * 1024 * 1024`. Returns the result and the files
remaining out of `[filePath]` (the too-large branch unlinks it). -/
def mediaSizeGate (filePath title : String) (audioOnly : Bool) (sizeBytes : Nat) :
    MediaDownloadResult × List String :=
  if sizeBytes > 64 * 1024 * 1024 then
    (⟨false, none, none, none,
      some ("File too large (" ++ fmtMB1 sizeBytes ++ "MB). Maximum is 64MB. Try audio-only for music.")⟩,
     [])
  else
    (⟨true, some filePath, some title, some audioOnly, none⟩, [filePath])

/-! ## Concrete scenario inputs used to instantiate the claim theorems -/

/-- The link selected in the C1 delivery-choice scenario. -/
def c1Link : DownloadLink := ⟨"Movie S1 Episode 1", "https://ds2.nkiserv.com/movie.mkv"⟩

/-- A session sitting in the delivery-choice stage with `c1Link` selected. -/
def c1Session : Session :=
  ⟨SessionState.DOWNLOAD_METHOD_SELECTION, [], [], none, some c1Link, 0⟩

/-- A session map holding exactly the C1 session for chat `"chat1"`. -/
def c1Store : Store := fun c => if c = "chat1" then some c1Session else none

/-- Detail-page anchors presenting the same final url twice under different
labels (two page paths to one URI). -/
def c2Anchors : List Anchor :=
  [⟨"https://ds2.nkiserv.com/f.mkv", "Episode 1"⟩,
   ⟨"https://ds2.nkiserv.com/f.mkv", "Episode 1 (mirror)"⟩,
   ⟨"https://ds2.nkiserv.com/g.mkv", "Episode 2"⟩]

/-- A gateway environment with no reachable gateways (irrelevant to C2). -/
def c2Env : String → GatewayResult := fun _ => GatewayResult.throwNoRedirect

/-- A search-results session with three candidates, for the C4 scenario. -/
def c4aSession : Session :=
  ⟨SessionState.SEARCH_RESULTS,
   [⟨"Inception", "https://thenkiri.com/a"⟩, ⟨"Inception 2", "https://thenkiri.com/b"⟩,
    ⟨"Inception 3", "https://thenkiri.com/c"⟩], [], none, none, 0⟩

/-- Session map for the C4 title-selection scenario. -/
def c4aStore : Store := fun c => if c = "chat4" then some c4aSession else none

/-- An episode-selection session with one resolved link, for C4. -/
def c4bSession : Session :=
  ⟨SessionState.EPISODE_SELECTION, [], [⟨"Episode 1", "https://ds2.nkiserv.com/e1.mkv"⟩],
   none, none, 0⟩

/-- Session map for the C4 link-selection scenario. -/
def c4bStore : Store := fun c => if c = "chat4b" then some c4bSession else none

/-- The gateway page of Scenario C: generic label `"Download"`. -/
def c5Page : DownloadLink := ⟨"Download", "https://wetafiles.com/gw"⟩

/-- Gateway environment of Scenario C: hidden field `token=abc`, POST
redirecting to the CDN resource. -/
def c5Env : String → GatewayResult :=
  fun _ => GatewayResult.ok [("token", "abc")] (some "https://cdn.example/file123.mp4?sig=xyz")

/-- The two gateway buttons of Scenario E. -/
def c6Buttons : List ButtonEl :=
  [⟨"https://downloadwella.com/a", "Episode 1", ""⟩,
   ⟨"https://downloadwella.com/b", "Episode 2", ""⟩]

/-- Scenario E environment: the first gateway fetch throws a network error,
the second resolves through the hidden-form POST. -/
def c6Env : String → GatewayResult := fun u =>
  if u = "https://downloadwella.com/a" then GatewayResult.throwNoRedirect
  else GatewayResult.ok [("token", "abc")] (some "https://ds2.nkiserv.com/ep2.mkv")

/-- The link selected in the C8 delivery-choice scenario. -/
def c8Link : DownloadLink := ⟨"Episode 1", "https://ds2.nkiserv.com/e1.mkv"⟩

/-- A delivery-choice session for the C8 scenario. -/
def c8Session : Session :=
  ⟨SessionState.DOWNLOAD_METHOD_SELECTION, [], [], none, some c8Link, 0⟩

/-- Session map holding exactly the C8 session for chat `"chat8"`. -/
def c8Store : Store := fun c => if c = "chat8" then some c8Session else none

/-! ## Helper lemmas -/

theorem dedupeAux_sublist (seen : List String) (l : List DownloadLink) :
    (dedupeAux seen l).Sublist l := by
  induction l generalizing seen with
  | nil => simp [dedupeAux]
  | cons x xs ih =>
    unfold dedupeAux
    by_cases h : x.url ∈ seen
    · simp only [h, if_true]
      exact (ih (x.url :: seen)).trans (List.sublist_cons_self x xs)
    · simp only [h, if_false]
      exact List.Sublist.cons₂ x (ih (x.url :: seen))

theorem dedupeAux_mem (seen : List String) (l : List DownloadLink) :
    ∀ e ∈ dedupeAux seen l,
      e.url ∉ seen ∧ l.find? (fun x => x.url == e.url) = some e := by
  induction l generalizing seen with
  | nil => intro e he; simp [dedupeAux] at he
  | cons x xs ih =>
    intro e he
    unfold dedupeAux at he
    by_cases h : x.url ∈ seen
    · simp only [h, if_true] at he
      obtain ⟨hnot, hfind⟩ := ih (x.url :: seen) e he
      have hne : x.url ≠ e.url := by
        intro hx; exact hnot (hx ▸ List.mem_cons_self x.url seen)
      refine ⟨fun hs => hnot (List.mem_cons_of_mem _ hs), ?_⟩
      rw [List.find?_cons_of_neg, hfind]
      simp [hne]
    · simp only [h, if_false, List.mem_cons] at he
      rcases he with rfl | he
      · exact ⟨h, by rw [List.find?_cons_of_pos] <;> simp⟩
      · obtain ⟨hnot, hfind⟩ := ih (x.url :: seen) e he
        have hne : x.url ≠ e.url := by
          intro hx; exact hnot (hx ▸ List.mem_cons_self x.url seen)
        refine ⟨fun hs => hnot (List.mem_cons_of_mem _ hs), ?_⟩
        rw [List.find?_cons_of_neg, hfind]
        simp [hne]

theorem dedupeAux_pairwise (seen : List String) (l : List DownloadLink) :
    (dedupeAux seen l).Pairwise (fun a b => a.url ≠ b.url) := by
  induction l generalizing seen with
  | nil => simp [dedupeAux]
  | cons x xs ih =>
    unfold dedupeAux
    by_cases h : x.url ∈ seen
    · simp only [h, if_true]; exact ih (x.url :: seen)
    · simp only [h, if_false]
      refine List.pairwise_cons.mpr ⟨?_, ih (x.url :: seen)⟩
      intro e he
      have := (dedupeAux_mem (x.url :: seen) xs e he).1
      intro hx; exact this (hx ▸ List.mem_cons_self x.url seen)

theorem jsIndex_out_of_range {α : Type} (l : List α) (sel : Int)
    (h : sel < 1 ∨ sel > (l.length : Int)) : jsIndex l (sel - 1) = none := by
  unfold jsIndex
  rcases h with h | h
  · rw [if_pos]; omega
  · rw [if_neg (by omega)]
    exact List.get?_eq_none.mpr (by omega)

theorem runGateway_none_of_fails (env : String → GatewayResult) (page : DownloadLink)
    (h : env page.url = GatewayResult.throwNoRedirect) : runGateway env page = none := by
  unfold runGateway
  rw [h]

theorem filterMap_runGateway_filter (env : String → GatewayResult) (buttons : List ButtonEl) :
    (downloadPagesOf (buttons.filter (fun b => !(gatewayFails env b)))).filterMap (runGateway env)
      = (downloadPagesOf buttons).filterMap (runGateway env) := by
  unfold downloadPagesOf
  rw [List.filterMap_filterMap, List.filterMap_filterMap, List.filterMap_filter]
  apply List.filterMap_congr
  intro b _
  by_cases hf : gatewayFails env b = true
  · have henv : env b.href = GatewayResult.throwNoRedirect := by
      unfold gatewayFails at hf
      revert hf
      cases env b.href <;> simp
    by_cases hgw : (containsStr b.href "downloadwella.com" || containsStr b.href "wetafiles.com") = true
    · simp [hf, hgw, runGateway, henv]
    · simp [hf, hgw]
  · simp [hf]

theorem collapseWsAux_ne_nil (b : Bool) (cs : List Char)
    (h : ∃ c, c ∈ cs ∧ jsWs c = false) : collapseWsAux b cs ≠ [] := by
  induction cs generalizing b with
  | nil => obtain ⟨c, hc, _⟩ := h; cases hc
  | cons x xs ih =>
    obtain ⟨c, hc, hw⟩ := h
    unfold collapseWsAux
    by_cases hx : jsWs x = true
    · have hcs : c ∈ xs := by
        rcases List.mem_cons.mp hc with h1 | h2
        · rw [h1] at hw; rw [hw] at hx; cases hx
        · exact h2
      rw [if_pos hx]
      cases b with
      | true => simpa using ih true ⟨c, hcs, hw⟩
      | false => simp
    · rw [if_neg hx]
      simp

theorem string_mk_ne_empty (cs : List Char) (h : cs ≠ []) : String.mk cs ≠ "" := by
  intro hc
  exact h (congrArg String.data hc)

theorem containsList_ne_nil (hay needle : List Char)
    (hc : containsList hay needle = true) (hn : needle ≠ []) : hay ≠ [] := by
  intro hh
  subst hh
  unfold containsList at hc
  exact hn (List.isEmpty_iff.mp hc)

theorem string_data_ne_nil (s : String) (h : s ≠ "") : s.data ≠ [] := by
  intro hd
  apply h
  cases s with
  | mk d => simp at hd; simp [hd]

theorem episodeLabel_ne_empty (raw : String) (i : Nat) (title : String) :
    episodeLabel raw i title ≠ "" := by
  unfold episodeLabel
  apply string_mk_ne_empty
  apply collapseWsAux_ne_nil
  refine ⟨'E', ?_, by decide⟩
  apply List.mem_append_left
  apply List.mem_append_right
  decide

theorem fallbackLabel_ne_empty (raw : String) (i : Nat) (title : String)
    (h : title ≠ "") : fallbackLabel raw i title ≠ "" := by
  unfold fallbackLabel
  have hd : title.data ≠ [] := string_data_ne_nil title h
  by_cases hcont : containsList
      ((trimChars (sepToSpace (replaceExts (removeAllCI ("download".data) raw.data)))).map Char.toLower)
      (title.data.map Char.toLower) = true
  · rw [if_pos hcont]
    apply string_mk_ne_empty
    have hneedle : title.data.map Char.toLower ≠ [] := by
      simpa using hd
    have := containsList_ne_nil _ _ hcont hneedle
    intro hnil
    apply this
    rw [hnil]
    rfl
  · rw [if_neg hcont]
    apply string_mk_ne_empty
    cases hcd : title.data with
    | nil => exact absurd hcd hd
    | cons a l => simp

/-! ## Claim theorems -/

/-- Claim C1: for every conversation id at most one session record exists at
any time (the session store maps each id to at most one `Session`), and a
delivery action in the delivery-choice stage always ends with the session
absent: replying 1 emits the raw link URI as text and deletes the session,
and replying 2 deletes the session strictly before the transfer
(`downloadAndSend`) is started, as the ordered event list shows. -/
theorem delivery_action_ends_session
    (t : Store) (chatId : String) (s : Session) (link : DownloadLink)
    (g : String → List DownloadLink) (now : Nat)
    (hs : t chatId = some s)
    (hst : s.state = SessionState.DOWNLOAD_METHOD_SELECTION)
    (hl : s.selectedLink = some link) :
    (∀ s1 s2 : Session, t chatId = some s1 → t chatId = some s2 → s1 = s2) ∧
    ((handleNumericReply t chatId 1 g now).1 chatId = none ∧
      (handleNumericReply t chatId 1 g now).2 =
        [Event.sendText chatId link.url, Event.deleteSession chatId]) ∧
    ((handleNumericReply t chatId 2 g now).1 chatId = none ∧
      (handleNumericReply t chatId 2 g now).2 =
        [Event.deleteSession chatId, Event.startTransfer chatId link]) := by
  refine ⟨?_, ?_, ?_⟩
  · intro s1 s2 h1 h2
    rw [h1] at h2
    exact Option.some.inj h2
  · constructor <;> simp [handleNumericReply, hs, hst, hl, Store.del]
  · constructor <;> simp [handleNumericReply, hs, hst, hl, Store.del]

/-- Witness for C1 at a concrete store, session and link. -/
theorem delivery_action_ends_session_witness :
    ((handleNumericReply c1Store "chat1" 1 (fun _ => []) 0).1 "chat1" = none ∧
      (handleNumericReply c1Store "chat1" 1 (fun _ => []) 0).2 =
        [Event.sendText "chat1" c1Link.url, Event.deleteSession "chat1"]) ∧
    ((handleNumericReply c1Store "chat1" 2 (fun _ => []) 0).1 "chat1" = none ∧
      (handleNumericReply c1Store "chat1" 2 (fun _ => []) 0).2 =
        [Event.deleteSession "chat1", Event.startTransfer "chat1" c1Link]) :=
  ⟨(delivery_action_ends_session c1Store "chat1" c1Session c1Link (fun _ => []) 0
      (by decide) (by decide) (by decide)).2.1,
   (delivery_action_ends_session c1Store "chat1" c1Session c1Link (fun _ => []) 0
      (by decide) (by decide) (by decide)).2.2⟩

/-- Claim C2: every result sequence of the link resolver has pairwise
distinct `url`s, is an order-preserving subsequence of the pre-dedup
`finalLinks`, and each surviving entry is exactly the first-seen entry (same
label, first position) carrying its url. -/
theorem resolver_dedup_first_seen (detail : DetailFetch) (env : String → GatewayResult) :
    (getDownloadLinks detail env).Pairwise (fun a b => a.url ≠ b.url) ∧
    (getDownloadLinks detail env).Sublist (rawFinalLinks detail env) ∧
    ∀ e ∈ getDownloadLinks detail env,
      (rawFinalLinks detail env).find? (fun x => x.url == e.url) = some e := by
  cases detail with
  | fail => simp [getDownloadLinks, rawFinalLinks]
  | page anchors buttons =>
    refine ⟨dedupeAux_pairwise [] _, dedupeAux_sublist [] _, ?_⟩
    intro e he
    exact (dedupeAux_mem [] _ e he).2

/-- Witness for C2 on a detail page presenting one final url through two
page paths: the first-seen entry survives with its label. -/
theorem resolver_dedup_first_seen_witness :
    (getDownloadLinks (DetailFetch.page c2Anchors []) c2Env).Pairwise
      (fun a b => a.url ≠ b.url) ∧
    (rawFinalLinks (DetailFetch.page c2Anchors []) c2Env).find?
        (fun x => x.url == "https://ds2.nkiserv.com/f.mkv")
      = some ⟨"Episode 1", "https://ds2.nkiserv.com/f.mkv"⟩ :=
  ⟨(resolver_dedup_first_seen (DetailFetch.page c2Anchors []) c2Env).1,
   by
    have h := (resolver_dedup_first_seen (DetailFetch.page c2Anchors []) c2Env).2.2
      ⟨"Episode 1", "https://ds2.nkiserv.com/f.mkv"⟩ (by decide)
    simpa using h⟩

/-- Claim C4: in the title-selection and link-selection stages, a numeric
reply below 1 or above the active collection's length yields exactly the
invalid-selection reply and returns the session map unchanged (same stage,
candidates and links; nothing deleted). -/
theorem invalid_selection_frame
    (t : Store) (chatId : String) (s : Session) (sel : Int)
    (g : String → List DownloadLink) (now : Nat)
    (hs : t chatId = some s) :
    (s.state = SessionState.SEARCH_RESULTS →
      sel < 1 ∨ sel > (s.lastResults.length : Int) →
      handleNumericReply t chatId sel g now = (t, [Event.replyMsg "Invalid selection."])) ∧
    (s.state = SessionState.EPISODE_SELECTION →
      sel < 1 ∨ sel > (s.lastLinks.length : Int) →
      handleNumericReply t chatId sel g now = (t, [Event.replyMsg "Invalid selection."])) := by
  constructor
  · intro hst hrange
    have hidx := jsIndex_out_of_range s.lastResults sel hrange
    simp [handleNumericReply, hs, hst, hidx]
  · intro hst hrange
    have hidx := jsIndex_out_of_range s.lastLinks sel hrange
    simp [handleNumericReply, hs, hst, hidx]

/-- Witness for C4: reply 99 against 3 candidates and reply 0 against 1
resolved link, both leaving the stores untouched. -/
theorem invalid_selection_frame_witness :
    handleNumericReply c4aStore "chat4" 99 (fun _ => []) 7
      = (c4aStore, [Event.replyMsg "Invalid selection."]) ∧
    handleNumericReply c4bStore "chat4b" 0 (fun _ => []) 7
      = (c4bStore, [Event.replyMsg "Invalid selection."]) :=
  ⟨(invalid_selection_frame c4aStore "chat4" c4aSession 99 (fun _ => []) 7
      (by decide)).1 (by decide) (by decide),
   (invalid_selection_frame c4bStore "chat4b" c4bSession 0 (fun _ => []) 7
      (by decide)).2 (by decide) (by decide)⟩

/-- Claim C8 counterexample: in the delivery-choice stage a numeric reply of
3 (neither 1 nor 2) leaves the session present — the code does NOT delete
it, contradicting the claim that such a reply ends with no session. -/
theorem other_delivery_reply_keeps_session_cex :
    (handleNumericReply c8Store "chat8" 3 (fun _ => []) 0).1 "chat8" = some c8Session ∧
    (handleNumericReply c8Store "chat8" 3 (fun _ => []) 0).2 =
      [Event.replyMsg "Please reply with *1* for the link or *2* for the file."] := by
  constructor <;> decide

/-- Claim C8 (amended): in the delivery-choice stage, a numeric reply that
is neither 1 nor 2 is NOT terminal: the handler replies asking for 1 or 2
and leaves the session map completely unchanged; the session is deleted only
by replies 1 and 2. -/
theorem other_delivery_reply_keeps_session
    (t : Store) (chatId : String) (s : Session) (sel : Int)
    (g : String → List DownloadLink) (now : Nat)
    (hs : t chatId = some s)
    (hst : s.state = SessionState.DOWNLOAD_METHOD_SELECTION)
    (h1 : sel ≠ 1) (h2 : sel ≠ 2) :
    handleNumericReply t chatId sel g now =
      (t, [Event.replyMsg "Please reply with *1* for the link or *2* for the file."]) := by
  simp [handleNumericReply, hs, hst, h1, h2]

/-- Witness for the amended C8 at reply 5. -/
theorem other_delivery_reply_keeps_session_witness :
    handleNumericReply c8Store "chat8" 5 (fun _ => []) 0 =
      (c8Store, [Event.replyMsg "Please reply with *1* for the link or *2* for the file."]) :=
  other_delivery_reply_keeps_session c8Store "chat8" c8Session 5 (fun _ => []) 0
    (by decide) (by decide) (by decide) (by decide)

/-- Claim C5: when a gateway page's hidden-form POST yields a redirect
`Location` and the gateway label is the generic placeholder
(case-insensitively "download" or "direct link"), the resulting entry's
label is the filename portion of the Location (path tail up to the first
`?`) whenever that portion is non-empty, and its url is the Location
verbatim, query string included. -/
theorem gateway_generic_label_filename
    (page : DownloadLink) (env : String → GatewayResult)
    (hidden : List (String × String)) (loc : String)
    (henv : env page.url = GatewayResult.ok hidden (some loc))
    (hh : hidden ≠ [])
    (hgen : lowerStr page.label = "download" ∨ lowerStr page.label = "direct link")
    (hfn : filenameOf loc ≠ "") :
    runGateway env page = some ⟨filenameOf loc, loc⟩ := by
  have hlen : hidden.length > 0 := List.length_pos.mpr hh
  unfold runGateway
  rw [henv]
  show (if hidden.length > 0 then some (mkGatewayEntry page.label loc) else none)
    = some ⟨filenameOf loc, loc⟩
  rw [if_pos hlen]
  unfold mkGatewayEntry
  rcases hgen with h | h
  · rw [h]
    have hc : (containsStr "download" "direct link" || "download" == "download") = true := by
      decide
    rw [if_pos hc]
    simp [hfn]
  · rw [h]
    have hc : (containsStr "direct link" "direct link" || "direct link" == "download") = true := by
      decide
    rw [if_pos hc]
    simp [hfn]

/-- Witness for C5 at Scenario C: label "Download", Location
`https://cdn.example/file123.mp4?sig=xyz`. -/
theorem gateway_generic_label_filename_witness :
    runGateway c5Env c5Page =
      some ⟨"file123.mp4", "https://cdn.example/file123.mp4?sig=xyz"⟩ := by
  have h := gateway_generic_label_filename c5Page c5Env [("token", "abc")]
    "https://cdn.example/file123.mp4?sig=xyz" rfl (by decide) (Or.inl (by decide)) (by decide)
  rw [h]
  decide

/-- Claim C6: a fetch/parse/POST failure on a gateway page removes only that
gateway's entry: the resolver's output equals what it would produce had the
failing gateway buttons not been on the page at all (Phase A untouched,
every other gateway's entry kept); concretely, Scenario E with two gateways
where the first throws yields exactly the one surviving entry. -/
theorem gateway_failure_isolated :
    (∀ (anchors : List Anchor) (buttons : List ButtonEl) (env : String → GatewayResult),
      getDownloadLinks (DetailFetch.page anchors buttons) env =
        getDownloadLinks
          (DetailFetch.page anchors (buttons.filter (fun b => !(gatewayFails env b)))) env) ∧
    getDownloadLinks (DetailFetch.page [] c6Buttons) c6Env =
      [⟨"Episode 2", "https://ds2.nkiserv.com/ep2.mkv"⟩] := by
  constructor
  · intro anchors buttons env
    show dedupeByUrl (directLinksOf anchors ++ (downloadPagesOf buttons).filterMap (runGateway env))
      = dedupeByUrl (directLinksOf anchors ++
          (downloadPagesOf (buttons.filter (fun b => !(gatewayFails env b)))).filterMap
            (runGateway env))
    rw [filterMap_runGateway_filter]
  · decide

set_option maxRecDepth 8192 in
/-- Claim C3 (refuted, code bug): with a content-length of 100 and chunks
hitting every quarter, the only user-facing percent actually sent is 50 —
never 25 or 75 — because the send is nested inside the `progress % 10 === 0`
log guard and 25 and 75 are not divisible by 10; one-byte chunks hitting
every percent give the same result, and with no content-length nothing is
sent (this last part matches the claim). -/
theorem progress_sent_only_fifty :
    progressSent 100 [25, 25, 25, 25] = [50] ∧
    progressSent 100 (List.replicate 100 1) = [50] ∧
    progressSent 0 [25, 25, 25, 25] = [] :=
  ⟨by decide, by decide, by decide⟩

/-- Claim C7 (refuted, code bug): when the transfer succeeds, the temp file
is renamed to the final filename and the subsequent delivery fails, the
`finally` block unlinks only the original temp path, so the renamed staging
file is left on disk; the success and transfer-failure paths do clean up. -/
theorem staging_leak_on_delivery_failure :
    downloadAndSendFiles "movie_1733000000000.mp4" "file123.mp4" true true false
      = ["file123.mp4"] ∧
    downloadAndSendFiles "movie_1733000000000.mp4" "file123.mp4" true true true = [] ∧
    downloadAndSendFiles "movie_1733000000000.mp4" "file123.mp4" true false false = [] ∧
    downloadAndSendFiles "movie_1733000000000.mp4" "file123.mp4" false true true = [] :=
  ⟨by decide, by decide, by decide, by decide⟩

/-- Claim C9: the label-cleanup transform is a pure deterministic function
of (raw label, 0-based position, parent title) — equal inputs give equal
output — and whenever the parent title is non-empty the output is
non-empty. -/
theorem label_cleanup_pure_nonempty
    (raw raw2 : String) (i i2 : Nat) (title title2 : String)
    (hr : raw = raw2) (hi : i = i2) (ht : title = title2) (hne : title ≠ "") :
    cleanLabel raw i title = cleanLabel raw2 i2 title2 ∧ cleanLabel raw i title ≠ "" := by
  subst hr
  subst hi
  subst ht
  refine ⟨rfl, ?_⟩
  unfold cleanLabel
  cases hsc : scanToken 'e' ("pisode".data) raw.data with
  | some ds => exact episodeLabel_ne_empty raw i title
  | none => exact fallbackLabel_ne_empty raw i title hne

/-- Witness for C9 at a concrete raw label, position and title. -/
theorem label_cleanup_pure_nonempty_witness :
    ("Breaking Bad" : String) ≠ "" ∧
    cleanLabel "Download Episode 5" 0 "Breaking Bad" ≠ "" :=
  ⟨by decide,
   (label_cleanup_pure_nonempty "Download Episode 5" "Download Episode 5" 0 0
      "Breaking Bad" "Breaking Bad" rfl rfl rfl (by decide)).2⟩

/-- Claim C10: the external-media size gate fails (success = false, with an
error message) and deletes the staged file whenever it exceeds 64MB, and
conversely every success result refers to a file of at most 64MB
(`sizeMB > 64` on the exact float division is `bytes > 64 * 1024 * 1024`). -/
theorem media_download_size_limit :
    (∀ (p t : String) (a : Bool) (size : Nat), size > 64 * 1024 * 1024 →
      (mediaSizeGate p t a size).1.success = false ∧
      (mediaSizeGate p t a size).1.error.isSome = true ∧
      (mediaSizeGate p t a size).2 = []) ∧
    (∀ (p t : String) (a : Bool) (size : Nat),
      (mediaSizeGate p t a size).1.success = true → size ≤ 64 * 1024 * 1024) := by
  constructor
  · intro p t a size h
    simp [mediaSizeGate, if_pos h]
  · intro p t a size h
    by_cases hgt : size > 64 * 1024 * 1024
    · simp [mediaSizeGate, if_pos hgt] at h
    · omega

/-- Witness for C10: a 64MB+1-byte file is rejected and removed; a 100-byte
success is within the limit. -/
theorem media_download_size_limit_witness :
    ((mediaSizeGate "/tmp/youtube_1.mp4" "Video" false 67108865).1.success = false ∧
      (mediaSizeGate "/tmp/youtube_1.mp4" "Video" false 67108865).2 = []) ∧
    (100 : Nat) ≤ 64 * 1024 * 1024 :=
  ⟨⟨(media_download_size_limit.1 "/tmp/youtube_1.mp4" "Video" false 67108865 (by decide)).1,
    (media_download_size_limit.1 "/tmp/youtube_1.mp4" "Video" false 67108865 (by decide)).2.2⟩,
   media_download_size_limit.2 "/tmp/youtube_1.mp4" "Video" false 100 (by decide)⟩
